import Mathlib

/-!
Shallow embedding of the post request handlers of the Updog backend
(`src/backend/server/controllers/posts.js`), together with theorems about
their authorization, error-handling and store-effect behaviour.

Modelling choices, stated once:

* The relational stores (Sequelize models `posts` and `sharedPost`, external
  collaborators per the spec) are embedded as lists of rows inside a `DB`
  state record threaded explicitly through every handler.
* An Express response object accumulates every `res.status(c).send(b)` call,
  in program order, into a list; the response actually observed by the client
  is the first element (Express commits the first write; later writes fail).
  This matters because two handlers fall through after sending a 401.
* JavaScript truthiness is embedded explicitly where the source tests it:
  `!authToken` is false for a missing or empty header string, and
  `!decodedUser.id` is false for a missing or zero numeric id.
* The token codec `Authentication.extractUser` is an external collaborator;
  handlers are parameterised over it as a function `String → DecodedUser`.
* `convertToPostDto` is an external mapper; a DTO response is embedded as the
  stored post record itself (`Body.dto`), since the handlers treat the DTO as
  opaque.
-/

namespace Updog

/-- The identity decoded from a bearer credential by the external token codec
(`Authentication.extractUser`). Only the `id` field is consumed by the
handlers; an unusable decode is one whose `id` is absent (or `0`, which
JavaScript also treats as falsy). -/
structure DecodedUser where
  id : Option Nat
deriving Repr, DecidableEq

/-- A row of the Post Store: `{id, text_content, author, parent}` as created
by `models.posts.create`. `author` is `Option` because the fall-through path
of `createPost` can insert a row with an undefined author id; `parent` is the
nullable self-reference. -/
structure Post where
  id : Nat
  text_content : String
  author : Option Nat
  parent : Option Nat
deriving Repr, DecidableEq

/-- A row of the Share Store join table: `(postId, userId)` as created by
`models.sharedPost.create`. `userId` is `Option` because it is copied from
`decodedUser.id`, which can be undefined on the fall-through path of
`sharePostById`. -/
structure Share where
  postId : Nat
  userId : Option Nat
deriving Repr, DecidableEq

/-- The database state: the Post Store and Share Store tables, plus the next
generated post id (Sequelize autoincrement primary key). -/
structure DB where
  posts : List Post
  shares : List Share
  nextId : Nat
deriving Repr, DecidableEq

/-- A response body: either a message payload (the handlers send short
strings or `{'Error message': ...}` objects, embedded by their message text)
or a post DTO. -/
inductive Body where
  | msg : String → Body
  | dto : Post → Body
deriving Repr, DecidableEq

/-- One `res.status(c).send(b)` call. -/
structure Resp where
  status : Nat
  body : Body
deriving Repr, DecidableEq

/-- JavaScript truthiness of the `Authorization` header value: falsy when the
header is absent or the empty string (`if (!authToken)`). -/
def strTruthy : Option String → Bool
  | none => false
  | some s => !s.isEmpty

/-- JavaScript truthiness of `decodedUser.id`: falsy when absent (undefined)
or the number `0` (`if (!decodedUser.id)`). -/
def idTruthy : Option Nat → Bool
  | none => false
  | some n => n != 0

/-- `models.posts.findByPk(k)`: `null` for a null/undefined key, otherwise
the first row whose primary key matches. -/
def findByPk (k : Option Nat) (posts : List Post) : Option Post :=
  match k with
  | none => none
  | some i => posts.find? (fun p => p.id == i)

/-- `models.posts.create({text_content, author, parent})`: appends a fresh
row with a generated id and returns it together with the new state. -/
def postsCreate (tc : String) (author parent : Option Nat) (db : DB) :
    Post × DB :=
  let p : Post := ⟨db.nextId, tc, author, parent⟩
  (p, { db with posts := db.posts ++ [p], nextId := db.nextId + 1 })

/-- `models.posts.update({text_content}, {where: {id}})`. The Post Store is
an external collaborator; per the spec its update operation reports the
number of affected rows, which is what the handler's truthiness test on the
result consumes. In this relational model the report is the number of rows
matching the `where` clause, and those rows get `text_content` overwritten. -/
def postsUpdateText (tc : String) (pid : Nat) (db : DB) : Nat × DB :=
  ((db.posts.filter (fun p => p.id == pid)).length,
   { db with
       posts := db.posts.map
         (fun p => if p.id == pid then { p with text_content := tc } else p) })

/-- `models.posts.destroy({where: {id}})`: removes every row matching the
`where` clause and reports how many were removed. -/
def postsDestroy (pid : Nat) (db : DB) : Nat × DB :=
  ((db.posts.filter (fun p => p.id == pid)).length,
   { db with posts := db.posts.filter (fun p => !(p.id == pid)) })

/-- `models.sharedPost.create({postId, userId})`: appends the row and returns
it (Sequelize `create` yields the created instance, which is truthy). -/
def sharesCreate (pid : Nat) (uid : Option Nat) (db : DB) : Share × DB :=
  (⟨pid, uid⟩, { db with shares := db.shares ++ [⟨pid, uid⟩] })

/-- `models.sharedPost.destroy({where: {postId, userId}})`: removes every row
matching the pair and reports how many were removed. -/
def sharesDestroy (pid : Nat) (uid : Option Nat) (db : DB) : Nat × DB :=
  ((db.shares.filter (fun s => s.postId == pid && s.userId == uid)).length,
   { db with
       shares := db.shares.filter
         (fun s => !(s.postId == pid && s.userId == uid)) })

/-- Request shape for `createPost`: the `Authorization` header and the body
fields `text_content` and `parent`. -/
structure CreateReq where
  authToken : Option String
  text_content : String
  parent : Option Nat
deriving Repr, DecidableEq

/-- Request shape for `modifyPostById`: header, path id, body text. -/
structure ModifyReq where
  authToken : Option String
  id : Nat
  text_content : String
deriving Repr, DecidableEq

/-- Request shape for `deletePostById`, `sharePostById`, `unsharePostById`:
header and path id. -/
structure PathReq where
  authToken : Option String
  id : Nat
deriving Repr, DecidableEq

/-- `createPost` (controllers/posts.js lines 11-50). Note the source sends
401 on an unusable decoded id but does not `return` or `else` out, so
execution falls through into the parent lookup and the insert; the 401
response is merely prepended to whatever is sent later. -/
def createPost (extractUser : String → DecodedUser) (req : CreateReq)
    (db : DB) : List Resp × DB :=
  if !(strTruthy req.authToken) then
    ([⟨400, Body.msg "Auth token not provided"⟩], db)
  else
    let decodedUser := extractUser (req.authToken.getD "")
    let early : List Resp :=
      if !(idTruthy decodedUser.id) then
        [⟨401, Body.msg "Auth token invalid"⟩]
      else []
    let parent := findByPk req.parent db.posts
    if parent.isSome || req.parent.isNone then
      let created := postsCreate req.text_content decodedUser.id req.parent db
      (early ++ [⟨201, Body.dto created.1⟩], created.2)
    else
      (early ++ [⟨404, Body.msg "Parent with that id does not exist."⟩], db)

/-- `getPostById` (lines 60-75): public read, no authorization. -/
def getPostById (pid : Nat) (db : DB) : List Resp × DB :=
  match findByPk (some pid) db.posts with
  | some post => ([⟨200, Body.dto post⟩], db)
  | none => ([⟨404, Body.msg "ID not found."⟩], db)

/-- `modifyPostById` (lines 85-130), parameterised over the external Post
Store's update operation (which reports the affected-row count); the concrete
relational instance is `modifyPostById`. Keeping the collaborator abstract
lets the zero-affected-rows anomaly the spec describes (a store-level race
after the existence check passed) be expressed. -/
def modifyPostByIdGen (update : String → Nat → DB → Nat × DB)
    (extractUser : String → DecodedUser) (req : ModifyReq) (db : DB) :
    List Resp × DB :=
  if !(strTruthy req.authToken) then
    ([⟨400, Body.msg "Auth token not provided"⟩], db)
  else
    let decodedUser := extractUser (req.authToken.getD "")
    if !(idTruthy decodedUser.id) then
      ([⟨401, Body.msg "Auth token invalid"⟩], db)
    else
      match findByPk (some req.id) db.posts with
      | none => ([⟨404, Body.msg "Invalid message ID."⟩], db)
      | some post =>
        if post.author == decodedUser.id then
          let updated := update req.text_content req.id db
          if updated.1 != 0 then
            ([⟨200, Body.msg "The message has been updated."⟩], updated.2)
          else
            ([⟨500, Body.msg "Failed to update the post."⟩], updated.2)
        else
          ([⟨403, Body.msg "Invalid author ID."⟩], db)

/-- `modifyPostById` against the relational Post Store model. -/
def modifyPostById (extractUser : String → DecodedUser) (req : ModifyReq)
    (db : DB) : List Resp × DB :=
  modifyPostByIdGen postsUpdateText extractUser req db

/-- `deletePostById` (lines 140-180). -/
def deletePostById (extractUser : String → DecodedUser) (req : PathReq)
    (db : DB) : List Resp × DB :=
  if !(strTruthy req.authToken) then
    ([⟨400, Body.msg "Auth token not provided"⟩], db)
  else
    let decodedUser := extractUser (req.authToken.getD "")
    if !(idTruthy decodedUser.id) then
      ([⟨401, Body.msg "Auth token invalid"⟩], db)
    else
      match findByPk (some req.id) db.posts with
      | none => ([⟨404, Body.msg "Invalid post ID."⟩], db)
      | some post =>
        if post.author == decodedUser.id then
          let destroyed := postsDestroy req.id db
          if destroyed.1 != 0 then
            ([⟨200, Body.msg "The post has been deleted."⟩], destroyed.2)
          else
            ([⟨500, Body.msg "Failed to destroy the post."⟩], destroyed.2)
        else
          ([⟨403, Body.msg "Invalid author ID."⟩], db)

/-- `sharePostById` (lines 182-222). Like `createPost`, the 401 on an
unusable decoded id does not stop execution: the post lookup and the share
insert still run. The `if (postShared)` test in the source is on the created
instance, which Sequelize always returns (truthy), so the success branch is
taken whenever the insert completes. -/
def sharePostById (extractUser : String → DecodedUser) (req : PathReq)
    (db : DB) : List Resp × DB :=
  if !(strTruthy req.authToken) then
    ([⟨400, Body.msg "Auth token not provided"⟩], db)
  else
    let decodedUser := extractUser (req.authToken.getD "")
    let early : List Resp :=
      if !(idTruthy decodedUser.id) then
        [⟨401, Body.msg "Auth token invalid"⟩]
      else []
    match findByPk (some req.id) db.posts with
    | some targetPost =>
      let postShared := sharesCreate targetPost.id decodedUser.id db
      (early ++ [⟨201, Body.msg "Post shared."⟩], postShared.2)
    | none =>
      (early ++ [⟨404, Body.msg "Parent with that id does not exist."⟩], db)

/-- `unsharePostById` (lines 224-257): deletes the Share rows matching
`(postId = path id, userId = caller id)`; `if (count)` is numeric truthiness
of the destroyed-row count. -/
def unsharePostById (extractUser : String → DecodedUser) (req : PathReq)
    (db : DB) : List Resp × DB :=
  if !(strTruthy req.authToken) then
    ([⟨400, Body.msg "Auth token not provided"⟩], db)
  else
    let decodedUser := extractUser (req.authToken.getD "")
    if !(idTruthy decodedUser.id) then
      ([⟨401, Body.msg "Auth token invalid"⟩], db)
    else
      let destroyed := sharesDestroy req.id decodedUser.id db
      if destroyed.1 != 0 then
        ([⟨200, Body.msg "The post has been unshared."⟩], destroyed.2)
      else
        ([⟨404, Body.msg "The post was not shared by the user before."⟩],
         destroyed.2)

/-- A found row's primary key matches the key it was looked up by. -/
theorem findByPk_id {i : Nat} {posts : List Post} {p : Post}
    (h : findByPk (some i) posts = some p) : p.id = i := by
  unfold findByPk at h
  simpa using List.find?_some h

/-- C1: the claim says every invalid-credential detection answers 401 and
short-circuits before any store access. The code violates this in
`createPost` and `sharePostById`: evaluated on a credential that decodes to
an identity with no usable id, `createPost` sends the 401 but then still
reads the Post Store and inserts a row with a null author, and
`sharePostById` sends the 401 but then still inserts a Share row with a null
user id. -/
theorem c1_invalid_credential_fallthrough :
    createPost (fun _ => ⟨none⟩) ⟨some "t", "x", none⟩ ⟨[], [], 1⟩
        = ([⟨401, Body.msg "Auth token invalid"⟩,
            ⟨201, Body.dto ⟨1, "x", none, none⟩⟩],
           ⟨[⟨1, "x", none, none⟩], [], 2⟩) ∧
    sharePostById (fun _ => ⟨none⟩) ⟨some "t", 1⟩
        ⟨[⟨1, "a", some 2, none⟩], [], 2⟩
        = ([⟨401, Body.msg "Auth token invalid"⟩,
            ⟨201, Body.msg "Post shared."⟩],
           ⟨[⟨1, "a", some 2, none⟩], [⟨1, none⟩], 2⟩) := by
  constructor <;> rfl

/-- C2: for an existing post and an authenticated caller who is not its
author, `modifyPostById` and `deletePostById` answer 403 Forbidden and leave
the whole database state, in particular the post row, unchanged. -/
theorem c2_forbidden_no_change (extractUser : String → DecodedUser)
    (tok : Option String) (pid : Nat) (tc : String) (db : DB) (post : Post)
    (htok : strTruthy tok = true)
    (hid : idTruthy (extractUser (tok.getD "")).id = true)
    (hfind : findByPk (some pid) db.posts = some post)
    (hne : post.author ≠ (extractUser (tok.getD "")).id) :
    modifyPostById extractUser ⟨tok, pid, tc⟩ db
        = ([⟨403, Body.msg "Invalid author ID."⟩], db) ∧
    deletePostById extractUser ⟨tok, pid⟩ db
        = ([⟨403, Body.msg "Invalid author ID."⟩], db) := by
  have hbeq : (post.author == (extractUser (tok.getD "")).id) = false :=
    beq_eq_false_iff_ne.mpr hne
  constructor
  · simp [modifyPostById, modifyPostByIdGen, htok, hid, hfind, hbeq]
  · simp [deletePostById, htok, hid, hfind, hbeq]

/-- Closed instance of C2: user 5 tries to modify and delete post 1 owned by
user 2; both answer 403 and change nothing. -/
theorem c2_forbidden_no_change_witness :
    modifyPostById (fun _ => ⟨some 5⟩) ⟨some "t", 1, "x"⟩
        ⟨[⟨1, "a", some 2, none⟩], [], 2⟩
        = ([⟨403, Body.msg "Invalid author ID."⟩],
           ⟨[⟨1, "a", some 2, none⟩], [], 2⟩) ∧
    deletePostById (fun _ => ⟨some 5⟩) ⟨some "t", 1⟩
        ⟨[⟨1, "a", some 2, none⟩], [], 2⟩
        = ([⟨403, Body.msg "Invalid author ID."⟩],
           ⟨[⟨1, "a", some 2, none⟩], [], 2⟩) :=
  c2_forbidden_no_change (fun _ => ⟨some 5⟩) (some "t") 1 "x"
    ⟨[⟨1, "a", some 2, none⟩], [], 2⟩ ⟨1, "a", some 2, none⟩
    (by decide) (by decide) (by decide) (by decide)

/-- C3: with a usable credential, `createPost` answers 404 and inserts
nothing when the body's non-null `parent` does not resolve to an existing
post; when `parent` is null/absent or resolves, it appends exactly one row
whose author is the decoded identity's id and whose parent is as given, and
answers 201 with the created post's DTO. -/
theorem c3_create_parent_check (extractUser : String → DecodedUser)
    (tok : Option String) (tc : String) (parent : Option Nat) (db : DB)
    (htok : strTruthy tok = true)
    (hid : idTruthy (extractUser (tok.getD "")).id = true) :
    (parent.isSome = true → findByPk parent db.posts = none →
      createPost extractUser ⟨tok, tc, parent⟩ db
        = ([⟨404, Body.msg "Parent with that id does not exist."⟩], db)) ∧
    ((parent = none ∨ (findByPk parent db.posts).isSome = true) →
      createPost extractUser ⟨tok, tc, parent⟩ db
        = ([⟨201,
             Body.dto ⟨db.nextId, tc, (extractUser (tok.getD "")).id, parent⟩⟩],
           { db with
               posts := db.posts
                 ++ [⟨db.nextId, tc, (extractUser (tok.getD "")).id, parent⟩],
               nextId := db.nextId + 1 })) := by
  constructor
  · intro hsome hnone
    have hnn : parent.isNone = false := by
      cases parent <;> simp_all
    simp [createPost, postsCreate, htok, hid, hnone, hnn]
  · intro h
    rcases h with h | h
    · subst h
      simp [createPost, postsCreate, findByPk, htok, hid]
    · simp [createPost, postsCreate, htok, hid, h]

/-- Closed instance of C3: a create with parent 9 against an empty Post
Store answers 404 and inserts nothing; a create with null parent appends the
row with the caller as author. -/
theorem c3_create_parent_check_witness :
    createPost (fun _ => ⟨some 1⟩) ⟨some "t", "hi", some 9⟩ ⟨[], [], 1⟩
        = ([⟨404, Body.msg "Parent with that id does not exist."⟩],
           ⟨[], [], 1⟩) ∧
    createPost (fun _ => ⟨some 1⟩) ⟨some "t", "hi", none⟩ ⟨[], [], 1⟩
        = ([⟨201, Body.dto ⟨1, "hi", some 1, none⟩⟩],
           ⟨[⟨1, "hi", some 1, none⟩], [], 2⟩) :=
  ⟨(c3_create_parent_check (fun _ => ⟨some 1⟩) (some "t") "hi" (some 9)
      ⟨[], [], 1⟩ (by decide) (by decide)).1 (by decide) (by decide),
   (c3_create_parent_check (fun _ => ⟨some 1⟩) (some "t") "hi" none
      ⟨[], [], 1⟩ (by decide) (by decide)).2 (Or.inl rfl)⟩

/-- Destroying shares of a pair nobody holds reports zero rows and leaves
the state unchanged. -/
theorem share_match_false {pid : Nat} {uid : Option Nat} {s : Share}
    (h : ¬(s.postId = pid ∧ s.userId = uid)) :
    (s.postId == pid && s.userId == uid) = false := by
  by_cases h1 : s.postId = pid
  · by_cases h2 : s.userId = uid
    · exact absurd ⟨h1, h2⟩ h
    · simp [h2]
  · simp [h1]

/-- Destroying shares of a pair nobody holds reports zero rows and leaves
the state unchanged. -/
theorem sharesDestroy_not_shared {pid : Nat} {uid : Option Nat} {db : DB}
    (h : ∀ s ∈ db.shares, ¬(s.postId = pid ∧ s.userId = uid)) :
    sharesDestroy pid uid db = (0, db) := by
  unfold sharesDestroy
  have h1 : db.shares.filter (fun s => s.postId == pid && s.userId == uid)
      = [] :=
    List.filter_eq_nil_iff.mpr
      (by intro s hs; simp [share_match_false (h s hs)])
  have h2 : db.shares.filter (fun s => !(s.postId == pid && s.userId == uid))
      = db.shares :=
    List.filter_eq_self.mpr
      (by intro s hs; simp only [share_match_false (h s hs), Bool.not_false])
  rw [h1, h2]
  rfl

/-- With the authorization gate passed, the state produced by
`unsharePostById` is exactly the state of the pair-scoped destroy, on both
response branches. -/
theorem unsharePostById_state (extractUser : String → DecodedUser)
    (tok : Option String) (pid : Nat) (db : DB)
    (htok : strTruthy tok = true)
    (hid : idTruthy (extractUser (tok.getD "")).id = true) :
    (unsharePostById extractUser ⟨tok, pid⟩ db).2
      = (sharesDestroy pid (extractUser (tok.getD "")).id db).2 := by
  simp only [unsharePostById, htok, hid, Bool.not_true, Bool.false_eq_true,
    if_false]
  split <;> rfl

/-- With the authorization gate passed, the response of `unsharePostById` is
decided by the destroyed-row count of the pair-scoped filter alone. -/
theorem unsharePostById_resp (extractUser : String → DecodedUser)
    (tok : Option String) (pid : Nat) (db : DB)
    (htok : strTruthy tok = true)
    (hid : idTruthy (extractUser (tok.getD "")).id = true) :
    (unsharePostById extractUser ⟨tok, pid⟩ db).1
      = (if (db.shares.filter (fun s => s.postId == pid
              && s.userId == (extractUser (tok.getD "")).id)).length != 0
         then [⟨200, Body.msg "The post has been unshared."⟩]
         else
           [⟨404, Body.msg "The post was not shared by the user before."⟩]) := by
  simp only [unsharePostById, htok, hid, Bool.not_true, Bool.false_eq_true,
    if_false, sharesDestroy]
  split <;> rename_i h <;> simp [h]

/-- With the gate passed and the target post found, `sharePostById` appends
exactly one Share row carrying the found post's id and the caller's id. -/
theorem sharePostById_state_found (extractUser : String → DecodedUser)
    (tok : Option String) (pid : Nat) (db : DB) (targetPost : Post)
    (htok : strTruthy tok = true)
    (hfind : findByPk (some pid) db.posts = some targetPost) :
    (sharePostById extractUser ⟨tok, pid⟩ db).2
      = { db with
            shares := db.shares
              ++ [⟨targetPost.id, (extractUser (tok.getD "")).id⟩] } := by
  simp [sharePostById, sharesCreate, htok, hfind]

/-- C4: in `modifyPostById`, when the external Post Store's update reports
zero affected rows after the ownership check already passed, the handler
answers 500 (internal failure), not 404. -/
theorem c4_zero_affected_internal_failure
    (update : String → Nat → DB → Nat × DB)
    (extractUser : String → DecodedUser)
    (tok : Option String) (pid : Nat) (tc : String) (db : DB) (post : Post)
    (htok : strTruthy tok = true)
    (hid : idTruthy (extractUser (tok.getD "")).id = true)
    (hfind : findByPk (some pid) db.posts = some post)
    (hown : post.author = (extractUser (tok.getD "")).id)
    (hzero : (update tc pid db).1 = 0) :
    (modifyPostByIdGen update extractUser ⟨tok, pid, tc⟩ db).1
      = [⟨500, Body.msg "Failed to update the post."⟩] := by
  have hbeq : (post.author == (extractUser (tok.getD "")).id) = true :=
    beq_iff_eq.mpr hown
  simp [modifyPostByIdGen, htok, hid, hfind, hbeq, hzero]

/-- Closed instance of C4: a store whose update reports zero affected rows
makes the owner's modify answer 500. -/
theorem c4_zero_affected_internal_failure_witness :
    (modifyPostByIdGen (fun _ _ db => (0, db)) (fun _ => ⟨some 2⟩)
        ⟨some "t", 1, "x"⟩ ⟨[⟨1, "a", some 2, none⟩], [], 2⟩).1
      = [⟨500, Body.msg "Failed to update the post."⟩] :=
  c4_zero_affected_internal_failure (fun _ _ db => (0, db))
    (fun _ => ⟨some 2⟩) (some "t") 1 "x"
    ⟨[⟨1, "a", some 2, none⟩], [], 2⟩ ⟨1, "a", some 2, none⟩
    (by decide) (by decide) (by decide) (by decide) rfl

/-- C5 counterexample: the claim quantifies over every starting state of the
Share Store, but when user 7 has already shared post 1, sharing adds a
duplicate row and unsharing deletes both matching rows, so the store does
not return to its pre-share state. -/
theorem c5_roundtrip_counterexample :
    ((unsharePostById (fun _ => ⟨some 7⟩) ⟨some "t", 1⟩
        (sharePostById (fun _ => ⟨some 7⟩) ⟨some "t", 1⟩
          ⟨[⟨1, "a", some 2, none⟩], [⟨1, some 7⟩], 2⟩).2).2).shares
      ≠ [⟨1, some 7⟩] := by decide

/-- C5 amended: for every starting state in which the caller has no
pre-existing Share row for the post, sharing then unsharing as that caller
returns the Share Store exactly to its pre-share state. -/
theorem c5_share_unshare_roundtrip (extractUser : String → DecodedUser)
    (tok : Option String) (pid : Nat) (db : DB)
    (htok : strTruthy tok = true)
    (hid : idTruthy (extractUser (tok.getD "")).id = true)
    (hfresh : ∀ s ∈ db.shares,
      ¬(s.postId = pid ∧ s.userId = (extractUser (tok.getD "")).id)) :
    (unsharePostById extractUser ⟨tok, pid⟩
        (sharePostById extractUser ⟨tok, pid⟩ db).2).2.shares
      = db.shares := by
  have hkeep : db.shares.filter (fun s =>
      !(s.postId == pid && s.userId == (extractUser (tok.getD "")).id))
        = db.shares := by
    refine List.filter_eq_self.mpr ?_
    intro s hs
    simp only [share_match_false (hfresh s hs), Bool.not_false]
  rw [unsharePostById_state extractUser tok pid _ htok hid]
  cases hfind : findByPk (some pid) db.posts with
  | none =>
    have hshare : (sharePostById extractUser ⟨tok, pid⟩ db).2 = db := by
      simp [sharePostById, htok, hfind]
    rw [hshare, (sharesDestroy_not_shared hfresh :
      sharesDestroy pid (extractUser (tok.getD "")).id db = (0, db))]
  | some targetPost =>
    rw [sharePostById_state_found extractUser tok pid db targetPost htok hfind]
    have hpid : targetPost.id = pid := findByPk_id hfind
    have hone : List.filter (fun (s : Share) =>
        !(s.postId == pid && s.userId == (extractUser (tok.getD "")).id))
        [⟨targetPost.id, (extractUser (tok.getD "")).id⟩] = [] := by
      simp [hpid]
    simp only [sharesDestroy, List.filter_append, hone, hkeep,
      List.append_nil]

/-- Closed instance of the amended C5: user 7 shares then unshares post 1
starting from an empty Share Store; the store ends empty again. -/
theorem c5_share_unshare_roundtrip_witness :
    ((unsharePostById (fun _ => ⟨some 7⟩) ⟨some "t", 1⟩
        (sharePostById (fun _ => ⟨some 7⟩) ⟨some "t", 1⟩
          ⟨[⟨1, "a", some 2, none⟩], [], 2⟩).2).2).shares = [] :=
  c5_share_unshare_roundtrip (fun _ => ⟨some 7⟩) (some "t") 1
    ⟨[⟨1, "a", some 2, none⟩], [], 2⟩
    (by decide) (by decide) (by intro s hs; simp at hs)

/-- C6: with a usable credential, `unsharePostById` removes exactly the
Share rows matching `(postId = path id, userId = caller id)`, touches no
post row, answers the dedicated "not previously shared" 404 when no such
row exists, and its response and share effect do not depend on the Post
Store contents at all. -/
theorem c6_unshare_pair_scoped (extractUser : String → DecodedUser)
    (tok : Option String) (pid : Nat) (db : DB)
    (htok : strTruthy tok = true)
    (hid : idTruthy (extractUser (tok.getD "")).id = true) :
    ((unsharePostById extractUser ⟨tok, pid⟩ db).2.shares
        = db.shares.filter (fun s =>
            !(s.postId == pid
              && s.userId == (extractUser (tok.getD "")).id))) ∧
    ((unsharePostById extractUser ⟨tok, pid⟩ db).2.posts = db.posts) ∧
    ((∀ s ∈ db.shares,
        ¬(s.postId = pid ∧ s.userId = (extractUser (tok.getD "")).id)) →
      (unsharePostById extractUser ⟨tok, pid⟩ db).1
        = [⟨404, Body.msg "The post was not shared by the user before."⟩]) ∧
    (∀ posts2 : List Post, ∀ nid2 : Nat,
      (unsharePostById extractUser ⟨tok, pid⟩ ⟨posts2, db.shares, nid2⟩).1
          = (unsharePostById extractUser ⟨tok, pid⟩ db).1 ∧
      (unsharePostById extractUser ⟨tok, pid⟩
          ⟨posts2, db.shares, nid2⟩).2.shares
          = (unsharePostById extractUser ⟨tok, pid⟩ db).2.shares) := by
  refine ⟨?_, ?_, ?_, ?_⟩
  · rw [unsharePostById_state extractUser tok pid db htok hid]
    rfl
  · rw [unsharePostById_state extractUser tok pid db htok hid]
    rfl
  · intro hnone
    simp [unsharePostById, htok, hid, sharesDestroy_not_shared hnone]
  · intro posts2 nid2
    constructor
    · rw [unsharePostById_resp extractUser tok pid _ htok hid,
        unsharePostById_resp extractUser tok pid db htok hid]
    · rw [unsharePostById_state extractUser tok pid _ htok hid,
        unsharePostById_state extractUser tok pid db htok hid]
      rfl

/-- Closed instance of C6: unsharing post 1 as user 7 with an empty Share
Store answers the "not previously shared" 404 and changes nothing. -/
theorem c6_unshare_pair_scoped_witness :
    (unsharePostById (fun _ => ⟨some 7⟩) ⟨some "t", 1⟩
        ⟨[⟨1, "a", some 2, none⟩], [], 2⟩).1
      = [⟨404, Body.msg "The post was not shared by the user before."⟩] :=
  (c6_unshare_pair_scoped (fun _ => ⟨some 7⟩) (some "t") 1
      ⟨[⟨1, "a", some 2, none⟩], [], 2⟩ (by decide) (by decide)).2.2.1
    (by intro s hs; simp at hs)

/-- C7: `sharePostById` applies no ownership check: with a usable
credential, whatever the target post's author (the caller included), an
existing target yields exactly one inserted Share row `(postId, callerId)`
and a 201 response; a missing target yields 404 and no change. -/
theorem c7_share_no_ownership (extractUser : String → DecodedUser)
    (tok : Option String) (pid : Nat) (db : DB)
    (htok : strTruthy tok = true)
    (hid : idTruthy (extractUser (tok.getD "")).id = true) :
    (∀ targetPost : Post, findByPk (some pid) db.posts = some targetPost →
      sharePostById extractUser ⟨tok, pid⟩ db
        = ([⟨201, Body.msg "Post shared."⟩],
           { db with
               shares := db.shares
                 ++ [⟨pid, (extractUser (tok.getD "")).id⟩] })) ∧
    (findByPk (some pid) db.posts = none →
      sharePostById extractUser ⟨tok, pid⟩ db
        = ([⟨404, Body.msg "Parent with that id does not exist."⟩], db)) := by
  constructor
  · intro targetPost hfind
    have hpid : targetPost.id = pid := findByPk_id hfind
    simp [sharePostById, sharesCreate, htok, hid, hfind, hpid]
  · intro hnone
    simp [sharePostById, htok, hid, hnone]

/-- Closed instance of C7: user 2 shares their own post 1 (no ownership
check applies) and gets 201 with exactly one Share row inserted; sharing the
missing post 9 gets 404 and no change. -/
theorem c7_share_no_ownership_witness :
    sharePostById (fun _ => ⟨some 2⟩) ⟨some "t", 1⟩
        ⟨[⟨1, "a", some 2, none⟩], [], 2⟩
      = ([⟨201, Body.msg "Post shared."⟩],
         ⟨[⟨1, "a", some 2, none⟩], [⟨1, some 2⟩], 2⟩) ∧
    sharePostById (fun _ => ⟨some 2⟩) ⟨some "t", 9⟩
        ⟨[⟨1, "a", some 2, none⟩], [], 2⟩
      = ([⟨404, Body.msg "Parent with that id does not exist."⟩],
         ⟨[⟨1, "a", some 2, none⟩], [], 2⟩) :=
  ⟨(c7_share_no_ownership (fun _ => ⟨some 2⟩) (some "t") 1
      ⟨[⟨1, "a", some 2, none⟩], [], 2⟩ (by decide) (by decide)).1
    ⟨1, "a", some 2, none⟩ (by decide),
   (c7_share_no_ownership (fun _ => ⟨some 2⟩) (some "t") 9
      ⟨[⟨1, "a", some 2, none⟩], [], 2⟩ (by decide) (by decide)).2
    (by decide)⟩

/-- Overwriting `text_content` of the rows matching an id preserves every
row's `id`, `author` and `parent`. -/
theorem map_proj_update (l : List Post) (tc : String) (pid : Nat) :
    (l.map (fun p =>
        if p.id == pid then { p with text_content := tc } else p)).map
        (fun p => (p.id, p.author, p.parent))
      = l.map (fun p => (p.id, p.author, p.parent)) := by
  induction l with
  | nil => rfl
  | cons a l ih =>
    simp only [List.map_cons, ih]
    by_cases h : a.id == pid <;> simp [h]

/-- C8: `author` (and `parent`) are written only at creation: `createPost`
either changes nothing or appends one row whose author is the decoded
identity's id; `modifyPostById` preserves every row's `id`, `author` and
`parent` on every path (it writes only `text_content`); `deletePostById`
only removes rows; `sharePostById`, `unsharePostById` and `getPostById`
never touch the Post Store rows at all. -/
theorem c8_author_write_once (extractUser : String → DecodedUser)
    (creq : CreateReq) (mreq : ModifyReq) (dreq sreq : PathReq)
    (gpid : Nat) (db : DB) :
    ((createPost extractUser creq db).2.posts = db.posts ∨
      (createPost extractUser creq db).2.posts
        = db.posts ++ [⟨db.nextId, creq.text_content,
            (extractUser (creq.authToken.getD "")).id, creq.parent⟩]) ∧
    ((modifyPostById extractUser mreq db).2.posts.map
        (fun p => (p.id, p.author, p.parent))
      = db.posts.map (fun p => (p.id, p.author, p.parent))) ∧
    ((deletePostById extractUser dreq db).2.posts = db.posts ∨
      (deletePostById extractUser dreq db).2.posts
        = db.posts.filter (fun p => !(p.id == dreq.id))) ∧
    ((sharePostById extractUser sreq db).2.posts = db.posts) ∧
    ((unsharePostById extractUser sreq db).2.posts = db.posts) ∧
    ((getPostById gpid db).2 = db) := by
  refine ⟨?_, ?_, ?_, ?_, ?_, ?_⟩
  · unfold createPost postsCreate
    repeat' (first | split | dsimp only)
    all_goals first
      | exact Or.inl rfl
      | exact Or.inr rfl
  · unfold modifyPostById modifyPostByIdGen
    repeat' (first | split | dsimp only)
    all_goals first
      | rfl
      | exact map_proj_update db.posts mreq.text_content mreq.id
  · unfold deletePostById postsDestroy
    repeat' (first | split | dsimp only)
    all_goals first
      | exact Or.inl rfl
      | exact Or.inr rfl
  · unfold sharePostById sharesCreate
    repeat' (first | split | dsimp only)
  · unfold unsharePostById sharesDestroy
    repeat' (first | split | dsimp only)
  · unfold getPostById
    repeat' (first | split | dsimp only)

/-- C9: `sharePostById` does no duplicate prevention: with a usable
credential and an existing target post, it appends a `(postId, callerId)`
Share row even when that exact pair is already present, so the pair then
occurs at least twice. -/
theorem c9_share_no_duplicate_prevention (extractUser : String → DecodedUser)
    (tok : Option String) (pid : Nat) (db : DB) (targetPost : Post)
    (htok : strTruthy tok = true)
    (hid : idTruthy (extractUser (tok.getD "")).id = true)
    (hfind : findByPk (some pid) db.posts = some targetPost)
    (hdup : (⟨pid, (extractUser (tok.getD "")).id⟩ : Share) ∈ db.shares) :
    (sharePostById extractUser ⟨tok, pid⟩ db).2.shares
        = db.shares ++ [⟨pid, (extractUser (tok.getD "")).id⟩] ∧
    2 ≤ (sharePostById extractUser ⟨tok, pid⟩ db).2.shares.count
          (⟨pid, (extractUser (tok.getD "")).id⟩ : Share) := by
  have hpid : targetPost.id = pid := findByPk_id hfind
  have hstate : (sharePostById extractUser ⟨tok, pid⟩ db).2.shares
      = db.shares ++ [⟨pid, (extractUser (tok.getD "")).id⟩] := by
    rw [sharePostById_state_found extractUser tok pid db targetPost htok hfind,
      hpid]
  refine ⟨hstate, ?_⟩
  rw [hstate, List.count_append]
  have h1 : 1 ≤ db.shares.count
      (⟨pid, (extractUser (tok.getD "")).id⟩ : Share) :=
    List.count_pos_iff.mpr hdup
  have h2 : ([⟨pid, (extractUser (tok.getD "")).id⟩] : List Share).count
      (⟨pid, (extractUser (tok.getD "")).id⟩ : Share) = 1 := by
    simp
  omega

/-- Closed instance of C9: user 7 shares post 1 a second time; the Share
Store then holds the pair twice. -/
theorem c9_share_no_duplicate_prevention_witness :
    (sharePostById (fun _ => ⟨some 7⟩) ⟨some "t", 1⟩
        ⟨[⟨1, "a", some 2, none⟩], [⟨1, some 7⟩], 2⟩).2.shares
      = [⟨1, some 7⟩, ⟨1, some 7⟩] ∧
    2 ≤ (sharePostById (fun _ => ⟨some 7⟩) ⟨some "t", 1⟩
        ⟨[⟨1, "a", some 2, none⟩], [⟨1, some 7⟩], 2⟩).2.shares.count
          (⟨1, some 7⟩ : Share) :=
  ⟨(c9_share_no_duplicate_prevention (fun _ => ⟨some 7⟩) (some "t") 1
      ⟨[⟨1, "a", some 2, none⟩], [⟨1, some 7⟩], 2⟩ ⟨1, "a", some 2, none⟩
      (by decide) (by decide) (by decide) (by decide)).1,
   (c9_share_no_duplicate_prevention (fun _ => ⟨some 7⟩) (some "t") 1
      ⟨[⟨1, "a", some 2, none⟩], [⟨1, some 7⟩], 2⟩ ⟨1, "a", some 2, none⟩
      (by decide) (by decide) (by decide) (by decide)).2⟩

/-- C10: on every path, `deletePostById` leaves the Share Store untouched
and either changes no post row or removes exactly the rows matching the path
id, leaving every other post row unchanged. -/
theorem c10_delete_frame (extractUser : String → DecodedUser)
    (req : PathReq) (db : DB) :
    (deletePostById extractUser req db).2.shares = db.shares ∧
    ((deletePostById extractUser req db).2.posts = db.posts ∨
      (deletePostById extractUser req db).2.posts
        = db.posts.filter (fun p => !(p.id == req.id))) := by
  constructor
  · unfold deletePostById postsDestroy
    repeat' (first | split | dsimp only)
  · unfold deletePostById postsDestroy
    repeat' (first | split | dsimp only)
    all_goals first
      | exact Or.inl rfl
      | exact Or.inr rfl

end Updog
